import Mathlib

/-!
Verification development for the youtube-playlist-downloader repository.

The JavaScript sources contain several near-duplicate copies of three
logical pieces: a subprocess retry orchestrator (the `downloadSingleVideo`
and `downloadPlaylist` methods of the classes `YoutubeDownloader`,
`YoutubePlaylistDownloader`, `YoutubeSingleDownloader` and the hardened
copy of `YoutubeSingleDownloader` found in youtube-downloader.js), a batch
fan-out (`downloadMultiplePlaylists`) and a dependency preflight
(`checkDependencies`).  We embed each copy faithfully: a subprocess launch
is modelled by a function from the attempt index to the observed process
outcome (exit code and accumulated stderr text of that attempt), waiting
is modelled by recording the requested delay in milliseconds, and a
JavaScript `Error` is a structure holding its message string.
-/

/-- A JavaScript `Error`: only its message is observable in this program. -/
structure JsError where
  message : String
  deriving Repr, DecidableEq

/-- The observable outcome of one subprocess launch: the exit code passed to
the `close` handler, and the stderr text accumulated by the per-attempt
`errorLog` accumulator while that process ran. -/
structure ProcOutcome where
  exitCode : Int
  stderrText : String
  deriving Repr, DecidableEq

/-- A download request. `url` models the destructured `videoUrl` or
`playlistUrl` field (absent = `none`), `maxHeight` the optional height cap,
`outputPath` the optional custom output directory. -/
structure DownloadRequest where
  url : Option String := none
  maxHeight : Option Nat := none
  outputPath : Option String := none
  deriving Repr, DecidableEq

/-- JavaScript falsiness of an optional string value, as tested by
`if (!videoUrl)`: an absent value and the empty string are falsy. -/
def jsFalsyStr : Option String → Bool
  | none => true
  | some s => s == ""

/-- JavaScript truthiness of an optional number, as tested by
`maxHeight ? ... : ...`: absent and `0` are falsy. -/
def jsTruthyNat : Option Nat → Bool
  | none => false
  | some n => n != 0

/-- The constant `maxRetries = 3` shared by every retry-loop copy. -/
def maxRetries : Nat := 3

/-- The observable trace of one orchestrated download call: how many times
the subprocess launcher was invoked, the backoff delays (ms) requested
between attempts, in order, and the final settlement (`Except.ok` = the
promise resolved, carrying the resolution message, `none` standing for the
implicit `undefined` return when the loop falls through; `Except.error` =
the call threw). -/
structure RetryTrace where
  launches : Nat
  waits : List Nat
  result : Except JsError (Option String)
  deriving Repr

/-- Exit-code acceptance of the strict copies: `if (code === 0)`. -/
def strictAccept (code : Int) : Bool := code == 0

/-- Exit-code acceptance of the lenient copies:
`if (code === 0 || code === 1)`. -/
def lenientAccept (code : Int) : Bool := code == 0 || code == 1

/-- The error message built by the strict single-video copies
(`YoutubeDownloader.downloadSingleVideo` and
`YoutubeSingleDownloader.downloadSingleVideo`) when an attempt fails. -/
def attemptErrMsg (retryCount : Nat) (out : ProcOutcome) : String :=
  "Download failed (attempt " ++ toString (retryCount + 1) ++ "/" ++
    toString maxRetries ++ "):\nExit code: " ++ toString out.exitCode ++
    "\nError log: " ++ out.stderrText

/-- The error message built by the hardened copies
(`YoutubePlaylistDownloader.downloadPlaylist` and the hardened
`YoutubeSingleDownloader` copy) when an attempt fails. -/
def hardenedErrMsg (_retryCount : Nat) (out : ProcOutcome) : String :=
  "Download failed with code " ++ toString out.exitCode ++
    "\nError log: " ++ out.stderrText

/-- One iteration family of the shared retry loop
`while (retryCount < maxRetries) { try ... catch ... }`.
`fuel` is the loop variant `maxRetries - retryCount`, so the loop guard
`retryCount < maxRetries` is exactly `fuel > 0`; `retryCount` is the
JavaScript counter and is used, as in the source, for the error message
(`retryCount + 1` is the attempt number) and for the backoff computed
after the increment.  Each iteration launches the process once
(`errorLog` is re-created inside the iteration, so each `ProcOutcome`
carries only its own attempt's stderr).  On an accepted exit code the
promise resolves with `okMsg`; otherwise the catch block increments the
counter, throws the attempt's error when the counter reaches
`maxRetries`, and else records the backoff wait and loops. -/
def retryAux (accept : Int → Bool) (mkErr : Nat → ProcOutcome → String)
    (backoff : Nat → Nat) (okMsg : String) (launcher : Nat → ProcOutcome) :
    Nat → Nat → RetryTrace
  | retryCount, fuel + 1 =>
    let out := launcher retryCount
    if accept out.exitCode then
      { launches := 1, waits := [], result := .ok (some okMsg) }
    else if retryCount + 1 == maxRetries then
      { launches := 1, waits := [], result := .error { message := mkErr retryCount out } }
    else
      let rest := retryAux accept mkErr backoff okMsg launcher (retryCount + 1) fuel
      { launches := rest.launches + 1, waits := backoff (retryCount + 1) :: rest.waits,
        result := rest.result }
  | _, 0 => { launches := 0, waits := [], result := .ok none }

/-- The whole retry loop, entered with `retryCount = 0`. -/
def runRetry (accept : Int → Bool) (mkErr : Nat → ProcOutcome → String)
    (backoff : Nat → Nat) (okMsg : String) (launcher : Nat → ProcOutcome) : RetryTrace :=
  retryAux accept mkErr backoff okMsg launcher 0 maxRetries

/-- `YoutubeDownloader.downloadSingleVideo` (src/youtube-downloader.js,
lines 107-165): validates the URL, then retries up to 3 times with a
fixed 2000 ms wait, accepting only exit code 0. -/
def YoutubeDownloader.downloadSingleVideo (req : DownloadRequest)
    (launcher : Nat → ProcOutcome) : RetryTrace :=
  if jsFalsyStr req.url then
    { launches := 0, waits := [], result := .error { message := "Video URL is required" } }
  else
    runRetry strictAccept attemptErrMsg (fun _ => 2000)
      "Video download completed successfully" launcher

/-- `YoutubeDownloader.downloadPlaylist` (src/youtube-downloader.js,
lines 63-97): validates the URL, launches once with no retry, accepting
only exit code 0. -/
def YoutubeDownloader.downloadPlaylist (req : DownloadRequest)
    (launcher : Nat → ProcOutcome) : RetryTrace :=
  if jsFalsyStr req.url then
    { launches := 0, waits := [], result := .error { message := "Playlist URL is required" } }
  else
    let out := launcher 0
    if out.exitCode == 0 then
      { launches := 1, waits := [], result := .ok (some "Download completed successfully") }
    else
      { launches := 1, waits := [],
        result := .error { message := "Download failed with code " ++ toString out.exitCode } }

/-- `YoutubePlaylistDownloader.downloadPlaylist`
(src/youtube-playlist-downloader.js, lines 69-122): validates the URL,
then retries up to 3 times with a `5000 * retryCount` ms wait, accepting
exit codes 0 and 1. -/
def YoutubePlaylistDownloader.downloadPlaylist (req : DownloadRequest)
    (launcher : Nat → ProcOutcome) : RetryTrace :=
  if jsFalsyStr req.url then
    { launches := 0, waits := [], result := .error { message := "Playlist URL is required" } }
  else
    runRetry lenientAccept hardenedErrMsg (fun n => 5000 * n)
      "Download completed with some videos" launcher

/-- `YoutubeSingleDownloader.downloadSingleVideo`
(src/youtube-single-downloader.js, lines 12-67): validates the URL, then
retries up to 3 times with a fixed 2000 ms wait, accepting only exit
code 0 (the strict single-video policy). -/
def YoutubeSingleDownloader.downloadSingleVideo (req : DownloadRequest)
    (launcher : Nat → ProcOutcome) : RetryTrace :=
  if jsFalsyStr req.url then
    { launches := 0, waits := [], result := .error { message := "Video URL is required" } }
  else
    runRetry strictAccept attemptErrMsg (fun _ => 2000)
      "Video download completed successfully" launcher

/-- The hardened `YoutubeSingleDownloader.downloadSingleVideo` copy
(src/youtube-downloader.js, lines 353-408): validates the URL, then
retries up to 3 times with a `5000 * retryCount` ms wait, accepting exit
codes 0 and 1. -/
def YoutubeSingleDownloaderHardened.downloadSingleVideo (req : DownloadRequest)
    (launcher : Nat → ProcOutcome) : RetryTrace :=
  if jsFalsyStr req.url then
    { launches := 0, waits := [], result := .error { message := "Video URL is required" } }
  else
    runRetry lenientAccept hardenedErrMsg (fun n => 5000 * n)
      "Download completed successfully" launcher

/-- The quality-selection (format) string built by
`YoutubeDownloader.downloadSingleVideo` (src/youtube-downloader.js,
lines 116-118): capped template when `maxHeight` is truthy, else the
unconstrained expression. -/
def YoutubeDownloader.singleVideoFormatString (maxHeight : Option Nat) : String :=
  if jsTruthyNat maxHeight then
    "bestvideo[height<=" ++ toString (maxHeight.getD 0) ++ "]+bestaudio/best[height<=" ++
      toString (maxHeight.getD 0) ++ "]/best"
  else
    "bestvideo+bestaudio/best"

/-- The format string built by `YoutubeDownloader.downloadPlaylist`
(src/youtube-downloader.js, lines 71-73).  Note the capped branch is
`bestvideo[height<=H]+bestaudio/best`, without the
`/best[height<=H]/best` tail the single-video builders append. -/
def YoutubeDownloader.playlistFormatString (maxHeight : Option Nat) : String :=
  if jsTruthyNat maxHeight then
    "bestvideo[height<=" ++ toString (maxHeight.getD 0) ++ "]+bestaudio/best"
  else
    "bestvideo+bestaudio/best"

/-- The format string built by `YoutubePlaylistDownloader.downloadPlaylist`
(src/youtube-playlist-downloader.js, lines 76-78). -/
def YoutubePlaylistDownloader.formatString (maxHeight : Option Nat) : String :=
  if jsTruthyNat maxHeight then
    "bestvideo[height<=" ++ toString (maxHeight.getD 0) ++ "]+bestaudio/best[height<=" ++
      toString (maxHeight.getD 0) ++ "]/best"
  else
    "bestvideo+bestaudio/best"

/-- The format string built by the second (simple) variant of
`YoutubePlaylistDownloader.downloadPlaylist`
(src/youtube-playlist-downloader.js, lines 212-214): like the simple
`YoutubeDownloader` playlist builder it lacks the capped tail. -/
def YoutubePlaylistDownloader.simpleFormatString (maxHeight : Option Nat) : String :=
  if jsTruthyNat maxHeight then
    "bestvideo[height<=" ++ toString (maxHeight.getD 0) ++ "]+bestaudio/best"
  else
    "bestvideo+bestaudio/best"

/-- The format string built by `YoutubeSingleDownloader.downloadSingleVideo`
(src/youtube-single-downloader.js, lines 21-23, and identically in the
hardened copy in src/youtube-downloader.js, lines 362-364). -/
def YoutubeSingleDownloader.formatString (maxHeight : Option Nat) : String :=
  if jsTruthyNat maxHeight then
    "bestvideo[height<=" ++ toString (maxHeight.getD 0) ++ "]+bestaudio/best[height<=" ++
      toString (maxHeight.getD 0) ++ "]/best"
  else
    "bestvideo+bestaudio/best"

/-- What the caller observes of one settled batch item, mirroring the
`.then`/`.catch` handlers attached in `downloadMultiplePlaylists`: on
resolution, the log line `Playlist N completed successfully`; on
rejection, the caught and logged failure with the item's error message. -/
inductive ItemOutcome where
  | completed (index : Nat)
  | failedLogged (index : Nat) (message : String)
  deriving Repr, DecidableEq

/-- The observable trace of one `downloadMultiplePlaylists` call: the total
number of subprocess launches it caused, and its settlement: `Except.ok`
with the per-item outcomes once every item has settled, or
`Except.error` when the call threw before fanning out. -/
structure BatchTrace where
  launches : Nat
  result : Except JsError (List ItemOutcome)
  deriving Repr

/-- The argument passed to `downloadMultiplePlaylists`: either a value for
which `Array.isArray` is false, or an array of playlist configurations. -/
inductive BatchArg where
  | notAnArray
  | arr (playlists : List DownloadRequest)

/-- The `.then`/`.catch` pair attached to one item's download promise:
turns the item's settlement into its logged outcome and never re-throws. -/
def settleItem (t : RetryTrace) (index : Nat) : ItemOutcome :=
  match t.result with
  | .ok _ => .completed (index + 1)
  | .error e => .failedLogged (index + 1) e.message

/-- `YoutubeDownloader.downloadMultiplePlaylists`
(src/youtube-downloader.js, lines 33-54): rejects a non-array or empty
argument before any fan-out, else maps every playlist to a
`downloadPlaylist` call with `.then`/`.catch` handlers and awaits
`Promise.all` of the resulting never-rejecting promises.
`launcherFor i` is the launcher observed by item `i`. -/
def YoutubeDownloader.downloadMultiplePlaylists (arg : BatchArg)
    (launcherFor : Nat → Nat → ProcOutcome) : BatchTrace :=
  match arg with
  | .notAnArray =>
    { launches := 0,
      result := .error { message := "Please provide an array of playlist configurations" } }
  | .arr playlists =>
    if playlists.length == 0 then
      { launches := 0,
        result := .error { message := "Please provide an array of playlist configurations" } }
    else
      { launches := (playlists.enum.map fun p =>
          (YoutubeDownloader.downloadPlaylist p.2 (launcherFor p.1)).launches).sum,
        result := .ok (playlists.enum.map fun p =>
          settleItem (YoutubeDownloader.downloadPlaylist p.2 (launcherFor p.1)) p.1) }

/-- `YoutubePlaylistDownloader.downloadMultiplePlaylists`
(src/youtube-playlist-downloader.js, lines 40-60): same fan-out, but each
item runs the retrying `YoutubePlaylistDownloader.downloadPlaylist`. -/
def YoutubePlaylistDownloader.downloadMultiplePlaylists (arg : BatchArg)
    (launcherFor : Nat → Nat → ProcOutcome) : BatchTrace :=
  match arg with
  | .notAnArray =>
    { launches := 0,
      result := .error { message := "Please provide an array of playlist configurations" } }
  | .arr playlists =>
    if playlists.length == 0 then
      { launches := 0,
        result := .error { message := "Please provide an array of playlist configurations" } }
    else
      { launches := (playlists.enum.map fun p =>
          (YoutubePlaylistDownloader.downloadPlaylist p.2 (launcherFor p.1)).launches).sum,
        result := .ok (playlists.enum.map fun p =>
          settleItem (YoutubePlaylistDownloader.downloadPlaylist p.2 (launcherFor p.1)) p.1) }

/-- The list of per-item outcomes a batch trace delivered (empty when the
batch call threw instead of fanning out). -/
def BatchTrace.outs (bt : BatchTrace) : List ItemOutcome :=
  match bt.result with
  | .ok l => l
  | .error _ => []

/-- A settled JavaScript promise: resolved with a value or rejected with an
error. -/
inductive PResult (α : Type) where
  | resolved (value : α)
  | rejected (error : JsError)
  deriving Repr, DecidableEq

/-- Whether a settled promise resolved. -/
def PResult.isResolved : PResult α → Bool
  | .resolved _ => true
  | .rejected _ => false

/-- `Promise.all` restricted to two settled promises: resolves with the
pair when both resolved, rejects as soon as either rejected. -/
def promiseAll2 : PResult α → PResult β → PResult (α × β)
  | .resolved a, .resolved b => .resolved (a, b)
  | .rejected e, _ => .rejected e
  | .resolved _, .rejected e => .rejected e

/-- `YoutubeDownloader.checkDependencies` (src/youtube-downloader.js,
lines 170-181): awaits `Promise.all` of the two version-query commands
(`yt-dlp --version`, `ffmpeg -version`); returns `true` when it resolves,
and on rejection logs one diagnostic line and returns `false`.  The two
arguments are the settlements of the two `executeCommand` promises; the
second component of the result is the list of diagnostic lines logged. -/
def YoutubeDownloader.checkDependencies (ytDlpVersion ffmpegVersion : PResult String) :
    Bool × List String :=
  match promiseAll2 ytDlpVersion ffmpegVersion with
  | .resolved _ => (true, [])
  | .rejected _ => (false, ["Missing dependencies. Please install yt-dlp and ffmpeg"])

/-- A sample request carrying a URL, used to instantiate the theorems below. -/
def sampleRequest : DownloadRequest :=
  { url := some "https://www.youtube.com/watch?v=abc", maxHeight := none, outputPath := none }

/-- A sample request with the URL field absent. -/
def emptyRequest : DownloadRequest :=
  { url := none, maxHeight := none, outputPath := none }

/-- A fake launcher whose process exits 2 on every attempt. -/
def exit2Launcher : Nat → ProcOutcome :=
  fun _ => { exitCode := 2, stderrText := "boom" }

/-- A fake launcher whose process exits 1 on every attempt. -/
def exit1Launcher : Nat → ProcOutcome :=
  fun _ => { exitCode := 1, stderrText := "skipped" }

/-- A fake launcher whose process always succeeds. -/
def exit0Launcher : Nat → ProcOutcome :=
  fun _ => { exitCode := 0, stderrText := "" }

/-- A fake launcher failing every attempt whose stderr differs between the
early attempts and the final one. -/
def staggeredLauncher : Nat → ProcOutcome :=
  fun n => { exitCode := 2, stderrText := if n == 2 then "final" else "early" }

/-- A fake launcher failing every attempt with the final attempt's stderr
throughout. -/
def constFinalLauncher : Nat → ProcOutcome :=
  fun _ => { exitCode := 2, stderrText := "final" }

/-- A batch launcher family where item 1 (the second item) always fails
with exit code 2 and the other items succeed. -/
def batchLauncherFor : Nat → Nat → ProcOutcome :=
  fun i _ =>
    if i == 1 then { exitCode := 2, stderrText := "boom" }
    else { exitCode := 0, stderrText := "" }

/-- Three sample playlist requests for the batch theorems. -/
def threeRequests : List DownloadRequest :=
  [{ url := some "https://www.youtube.com/playlist?list=a" },
   { url := some "https://www.youtube.com/playlist?list=b" },
   { url := some "https://www.youtube.com/playlist?list=c" }]

/-- The retry loop launches the process at most once per unit of fuel. -/
theorem retryAux_launches_le (accept : Int → Bool) (mkErr : Nat → ProcOutcome → String)
    (backoff : Nat → Nat) (okMsg : String) (launcher : Nat → ProcOutcome) :
    ∀ fuel retryCount,
      (retryAux accept mkErr backoff okMsg launcher retryCount fuel).launches ≤ fuel := by
  intro fuel
  induction fuel with
  | zero => intro rc; simp [retryAux]
  | succ n ih =>
    intro rc
    simp only [retryAux]
    split
    · simp
    · split
      · simp
      · simpa using Nat.succ_le_succ (ih (rc + 1))

/-- The whole retry loop launches the process at most `maxRetries` times. -/
theorem runRetry_launches_le (accept : Int → Bool) (mkErr : Nat → ProcOutcome → String)
    (backoff : Nat → Nat) (okMsg : String) (launcher : Nat → ProcOutcome) :
    (runRetry accept mkErr backoff okMsg launcher).launches ≤ 3 :=
  retryAux_launches_le accept mkErr backoff okMsg launcher maxRetries 0

/-- When the first attempt's exit code is accepted, the loop resolves after
one launch with no waiting. -/
theorem runRetry_first_ok (accept : Int → Bool) (mkErr : Nat → ProcOutcome → String)
    (backoff : Nat → Nat) (okMsg : String) (launcher : Nat → ProcOutcome)
    (h : accept (launcher 0).exitCode = true) :
    runRetry accept mkErr backoff okMsg launcher =
      { launches := 1, waits := [], result := .ok (some okMsg) } := by
  simp [runRetry, maxRetries, retryAux, h]

/-- When no attempt's exit code is accepted, the loop launches exactly
3 times, waits `backoff 1` then `backoff 2`, and throws the error built
from the final (third) attempt's outcome alone. -/
theorem runRetry_all_fail (accept : Int → Bool) (mkErr : Nat → ProcOutcome → String)
    (backoff : Nat → Nat) (okMsg : String) (launcher : Nat → ProcOutcome)
    (h : ∀ n, accept (launcher n).exitCode = false) :
    runRetry accept mkErr backoff okMsg launcher =
      { launches := 3, waits := [backoff 1, backoff 2],
        result := .error { message := mkErr 2 (launcher 2) } } := by
  simp [runRetry, maxRetries, retryAux, h 0, h 1, h 2]

/-- An exit code the lenient policy rejects is also rejected strictly. -/
theorem strictAccept_of_lenient_false (c : Int) (h : lenientAccept c = false) :
    strictAccept c = false := by
  simp only [lenientAccept, Bool.or_eq_false_iff] at h
  exact h.1

/-- The strict copies' error message for the final (third) attempt. -/
theorem attemptErrMsg_last (out : ProcOutcome) :
    attemptErrMsg 2 out =
      "Download failed (attempt 3/3):\nExit code: " ++ toString out.exitCode ++
        "\nError log: " ++ out.stderrText := by
  simp only [attemptErrMsg, maxRetries]
  congr 3

/-- Indexing the settled batch outcome list: item `i` is a function of the
`i`-th playlist and its own launcher `launcherFor i` only. -/
theorem settle_map_getElem? (dl : DownloadRequest → (Nat → ProcOutcome) → RetryTrace)
    (playlists : List DownloadRequest) (launcherFor : Nat → Nat → ProcOutcome) (i : Nat) :
    (playlists.enum.map fun p => settleItem (dl p.2 (launcherFor p.1)) p.1)[i]? =
      playlists[i]?.map fun a => settleItem (dl a (launcherFor i)) i := by
  rw [List.getElem?_map, List.getElem?_enum]
  cases playlists[i]? <;> rfl

/-- C1: For every request with a URL and a launcher whose process exits with
the retryable code 2 on every attempt, `YoutubeDownloader.downloadSingleVideo`
(simple mode) invokes the launcher exactly 3 times, waits the fixed 2000 ms
backoff between attempts, and finally throws an error whose message includes
the last exit code 2, while `YoutubePlaylistDownloader.downloadPlaylist`
(hardened mode) invokes the launcher exactly 3 times, waits
`5000 * attemptsMade` (5000 then 10000) ms, and finally throws an error whose
message includes the last exit code 2. -/
theorem claim_C1 (req : DownloadRequest) (launcher : Nat → ProcOutcome)
    (hurl : jsFalsyStr req.url = false)
    (hcode : ∀ n, (launcher n).exitCode = 2) :
    YoutubeDownloader.downloadSingleVideo req launcher =
      { launches := 3, waits := [2000, 2000],
        result := .error { message :=
          "Download failed (attempt 3/3):\nExit code: 2\nError log: " ++
            (launcher 2).stderrText } } ∧
    YoutubePlaylistDownloader.downloadPlaylist req launcher =
      { launches := 3, waits := [5000 * 1, 5000 * 2],
        result := .error { message :=
          "Download failed with code 2\nError log: " ++ (launcher 2).stderrText } } := by
  have hs : ∀ n, strictAccept (launcher n).exitCode = false := by
    intro n; simp [strictAccept, hcode n]
  have hl : ∀ n, lenientAccept (launcher n).exitCode = false := by
    intro n; simp [lenientAccept, hcode n]
  constructor
  · simp only [YoutubeDownloader.downloadSingleVideo, hurl, Bool.false_eq_true, if_false,
      runRetry_all_fail _ _ _ _ _ hs, attemptErrMsg_last, hcode 2]
    congr 2
  · simp only [YoutubePlaylistDownloader.downloadPlaylist, hurl, Bool.false_eq_true, if_false,
      runRetry_all_fail _ _ _ _ _ hl, hardenedErrMsg, hcode 2]
    congr 2

/-- C1 witness: the sample request and the always-exit-2 launcher satisfy the
hypotheses of `claim_C1` and exhibit its conclusion concretely. -/
theorem claim_C1_witness :
    jsFalsyStr sampleRequest.url = false ∧
    (YoutubeDownloader.downloadSingleVideo sampleRequest exit2Launcher =
      { launches := 3, waits := [2000, 2000],
        result := .error { message :=
          "Download failed (attempt 3/3):\nExit code: 2\nError log: boom" } } ∧
    YoutubePlaylistDownloader.downloadPlaylist sampleRequest exit2Launcher =
      { launches := 3, waits := [5000, 10000],
        result := .error { message :=
          "Download failed with code 2\nError log: boom" } }) :=
  ⟨by decide, claim_C1 sampleRequest exit2Launcher (by decide) (fun _ => rfl)⟩

/-- C2 counterexample: with a height cap of 720, the playlist-mode command
builder of `YoutubeDownloader.downloadPlaylist` produces
`bestvideo[height<=720]+bestaudio/best`, which is not the claimed exact
string `bestvideo[height<=720]+bestaudio/best[height<=720]/best`; so the
claim that both single-video and playlist modes produce the latter is
false. -/
theorem claim_C2_counterexample :
    YoutubeDownloader.playlistFormatString (some 720) =
      "bestvideo[height<=720]+bestaudio/best" ∧
    YoutubeDownloader.playlistFormatString (some 720) ≠
      "bestvideo[height<=720]+bestaudio/best[height<=720]/best" := by
  exact ⟨rfl, by decide⟩

/-- C2 amended: when a height cap H is given, the single-video builders
(`YoutubeDownloader.downloadSingleVideo`, `YoutubeSingleDownloader` in both
copies) and the hardened playlist builder
(`YoutubePlaylistDownloader.downloadPlaylist`) produce exactly
`bestvideo[height<=H]+bestaudio/best[height<=H]/best`, while the simple
playlist builders (`YoutubeDownloader.downloadPlaylist` and the simple
`YoutubePlaylistDownloader` variant) produce exactly
`bestvideo[height<=H]+bestaudio/best`; when no height cap is given, every
builder produces exactly `bestvideo+bestaudio/best`. -/
theorem claim_C2_amended (h : Nat) (hpos : h ≠ 0) :
    YoutubeDownloader.singleVideoFormatString (some h) =
      "bestvideo[height<=" ++ toString h ++ "]+bestaudio/best[height<=" ++
        toString h ++ "]/best" ∧
    YoutubePlaylistDownloader.formatString (some h) =
      "bestvideo[height<=" ++ toString h ++ "]+bestaudio/best[height<=" ++
        toString h ++ "]/best" ∧
    YoutubeSingleDownloader.formatString (some h) =
      "bestvideo[height<=" ++ toString h ++ "]+bestaudio/best[height<=" ++
        toString h ++ "]/best" ∧
    YoutubeDownloader.playlistFormatString (some h) =
      "bestvideo[height<=" ++ toString h ++ "]+bestaudio/best" ∧
    YoutubePlaylistDownloader.simpleFormatString (some h) =
      "bestvideo[height<=" ++ toString h ++ "]+bestaudio/best" ∧
    YoutubeDownloader.singleVideoFormatString none = "bestvideo+bestaudio/best" ∧
    YoutubePlaylistDownloader.formatString none = "bestvideo+bestaudio/best" ∧
    YoutubeSingleDownloader.formatString none = "bestvideo+bestaudio/best" ∧
    YoutubeDownloader.playlistFormatString none = "bestvideo+bestaudio/best" ∧
    YoutubePlaylistDownloader.simpleFormatString none = "bestvideo+bestaudio/best" := by
  have ht : jsTruthyNat (some h) = true := by simp [jsTruthyNat, hpos]
  refine ⟨?_, ?_, ?_, ?_, ?_, rfl, rfl, rfl, rfl, rfl⟩ <;>
    simp [YoutubeDownloader.singleVideoFormatString, YoutubePlaylistDownloader.formatString,
      YoutubeSingleDownloader.formatString, YoutubeDownloader.playlistFormatString,
      YoutubePlaylistDownloader.simpleFormatString, ht]

/-- C2 amended witness: instantiated at the height cap 720. -/
theorem claim_C2_amended_witness :
    (720 : Nat) ≠ 0 ∧
    (YoutubeDownloader.singleVideoFormatString (some 720) =
      "bestvideo[height<=720]+bestaudio/best[height<=720]/best" ∧
    YoutubePlaylistDownloader.formatString (some 720) =
      "bestvideo[height<=720]+bestaudio/best[height<=720]/best" ∧
    YoutubeSingleDownloader.formatString (some 720) =
      "bestvideo[height<=720]+bestaudio/best[height<=720]/best" ∧
    YoutubeDownloader.playlistFormatString (some 720) =
      "bestvideo[height<=720]+bestaudio/best" ∧
    YoutubePlaylistDownloader.simpleFormatString (some 720) =
      "bestvideo[height<=720]+bestaudio/best" ∧
    YoutubeDownloader.singleVideoFormatString none = "bestvideo+bestaudio/best" ∧
    YoutubePlaylistDownloader.formatString none = "bestvideo+bestaudio/best" ∧
    YoutubeSingleDownloader.formatString none = "bestvideo+bestaudio/best" ∧
    YoutubeDownloader.playlistFormatString none = "bestvideo+bestaudio/best" ∧
    YoutubePlaylistDownloader.simpleFormatString none = "bestvideo+bestaudio/best") :=
  ⟨by decide, claim_C2_amended 720 (by decide)⟩

/-- C3: For every request with a URL and a launcher whose process exits with
code 1 on every attempt, the strict single-video operation
`YoutubeSingleDownloader.downloadSingleVideo` classifies the exit as a
failure, retries (3 launches, two 2000 ms waits) and ultimately throws,
while the playlist operation `YoutubePlaylistDownloader.downloadPlaylist`
and the hardened single-video copy classify the same exit code 1 as
acceptable success and resolve after one launch. -/
theorem claim_C3 (req : DownloadRequest) (launcher : Nat → ProcOutcome)
    (hurl : jsFalsyStr req.url = false)
    (hcode : ∀ n, (launcher n).exitCode = 1) :
    YoutubeSingleDownloader.downloadSingleVideo req launcher =
      { launches := 3, waits := [2000, 2000],
        result := .error { message :=
          "Download failed (attempt 3/3):\nExit code: 1\nError log: " ++
            (launcher 2).stderrText } } ∧
    YoutubePlaylistDownloader.downloadPlaylist req launcher =
      { launches := 1, waits := [],
        result := .ok (some "Download completed with some videos") } ∧
    YoutubeSingleDownloaderHardened.downloadSingleVideo req launcher =
      { launches := 1, waits := [],
        result := .ok (some "Download completed successfully") } := by
  have hs : ∀ n, strictAccept (launcher n).exitCode = false := by
    intro n; simp [strictAccept, hcode n]
  have hl : lenientAccept (launcher 0).exitCode = true := by
    simp [lenientAccept, hcode 0]
  refine ⟨?_, ?_, ?_⟩
  · simp only [YoutubeSingleDownloader.downloadSingleVideo, hurl, Bool.false_eq_true, if_false,
      runRetry_all_fail _ _ _ _ _ hs, attemptErrMsg_last, hcode 2]
    congr 2
  · simp only [YoutubePlaylistDownloader.downloadPlaylist, hurl, Bool.false_eq_true, if_false,
      runRetry_first_ok _ _ _ _ _ hl]
  · simp only [YoutubeSingleDownloaderHardened.downloadSingleVideo, hurl, Bool.false_eq_true,
      if_false, runRetry_first_ok _ _ _ _ _ hl]

/-- C3 witness: the sample request and the always-exit-1 launcher satisfy the
hypotheses of `claim_C3` and exhibit its conclusion concretely. -/
theorem claim_C3_witness :
    jsFalsyStr sampleRequest.url = false ∧
    (YoutubeSingleDownloader.downloadSingleVideo sampleRequest exit1Launcher =
      { launches := 3, waits := [2000, 2000],
        result := .error { message :=
          "Download failed (attempt 3/3):\nExit code: 1\nError log: skipped" } } ∧
    YoutubePlaylistDownloader.downloadPlaylist sampleRequest exit1Launcher =
      { launches := 1, waits := [],
        result := .ok (some "Download completed with some videos") } ∧
    YoutubeSingleDownloaderHardened.downloadSingleVideo sampleRequest exit1Launcher =
      { launches := 1, waits := [],
        result := .ok (some "Download completed successfully") }) :=
  ⟨by decide, claim_C3 sampleRequest exit1Launcher (by decide) (fun _ => rfl)⟩

/-- C4: For every request whose resource URL is missing or empty, every
download entry point (`downloadSingleVideo` and `downloadPlaylist` in all
their copies) throws the validation error immediately and the subprocess
launcher is invoked zero times. -/
theorem claim_C4 (req : DownloadRequest) (launcher : Nat → ProcOutcome)
    (hurl : jsFalsyStr req.url = true) :
    YoutubeDownloader.downloadSingleVideo req launcher =
      { launches := 0, waits := [], result := .error { message := "Video URL is required" } } ∧
    YoutubeDownloader.downloadPlaylist req launcher =
      { launches := 0, waits := [], result := .error { message := "Playlist URL is required" } } ∧
    YoutubePlaylistDownloader.downloadPlaylist req launcher =
      { launches := 0, waits := [], result := .error { message := "Playlist URL is required" } } ∧
    YoutubeSingleDownloader.downloadSingleVideo req launcher =
      { launches := 0, waits := [], result := .error { message := "Video URL is required" } } ∧
    YoutubeSingleDownloaderHardened.downloadSingleVideo req launcher =
      { launches := 0, waits := [], result := .error { message := "Video URL is required" } } := by
  refine ⟨?_, ?_, ?_, ?_, ?_⟩ <;>
    simp [YoutubeDownloader.downloadSingleVideo, YoutubeDownloader.downloadPlaylist,
      YoutubePlaylistDownloader.downloadPlaylist, YoutubeSingleDownloader.downloadSingleVideo,
      YoutubeSingleDownloaderHardened.downloadSingleVideo, hurl]

/-- C4 witness: the URL-less request satisfies the hypothesis of `claim_C4`
and every entry point rejects it with zero launches. -/
theorem claim_C4_witness :
    jsFalsyStr emptyRequest.url = true ∧
    (YoutubeDownloader.downloadSingleVideo emptyRequest exit0Launcher =
      { launches := 0, waits := [], result := .error { message := "Video URL is required" } } ∧
    YoutubeDownloader.downloadPlaylist emptyRequest exit0Launcher =
      { launches := 0, waits := [], result := .error { message := "Playlist URL is required" } } ∧
    YoutubePlaylistDownloader.downloadPlaylist emptyRequest exit0Launcher =
      { launches := 0, waits := [], result := .error { message := "Playlist URL is required" } } ∧
    YoutubeSingleDownloader.downloadSingleVideo emptyRequest exit0Launcher =
      { launches := 0, waits := [], result := .error { message := "Video URL is required" } } ∧
    YoutubeSingleDownloaderHardened.downloadSingleVideo emptyRequest exit0Launcher =
      { launches := 0, waits := [], result := .error { message := "Video URL is required" } }) :=
  ⟨by decide, claim_C4 emptyRequest exit0Launcher (by decide)⟩

/-- C5: For every non-empty array of requests, both batch operations
(`downloadMultiplePlaylists` of `YoutubeDownloader` and of
`YoutubePlaylistDownloader`) resolve (no exception escapes) with one settled
outcome per item; and each item's outcome depends only on that item's own
launcher, so a sibling's failure cannot cancel or abort it. -/
theorem claim_C5 (playlists : List DownloadRequest) (f g : Nat → Nat → ProcOutcome)
    (hne : playlists ≠ []) :
    (YoutubeDownloader.downloadMultiplePlaylists (.arr playlists) f).result =
        .ok ((YoutubeDownloader.downloadMultiplePlaylists (.arr playlists) f).outs) ∧
    (YoutubeDownloader.downloadMultiplePlaylists (.arr playlists) f).outs.length =
        playlists.length ∧
    (YoutubePlaylistDownloader.downloadMultiplePlaylists (.arr playlists) f).result =
        .ok ((YoutubePlaylistDownloader.downloadMultiplePlaylists (.arr playlists) f).outs) ∧
    (YoutubePlaylistDownloader.downloadMultiplePlaylists (.arr playlists) f).outs.length =
        playlists.length ∧
    (∀ i, f i = g i →
      (YoutubeDownloader.downloadMultiplePlaylists (.arr playlists) f).outs[i]? =
        (YoutubeDownloader.downloadMultiplePlaylists (.arr playlists) g).outs[i]? ∧
      (YoutubePlaylistDownloader.downloadMultiplePlaylists (.arr playlists) f).outs[i]? =
        (YoutubePlaylistDownloader.downloadMultiplePlaylists (.arr playlists) g).outs[i]?) := by
  have hlen : (playlists.length == 0) = false := by
    simp [List.length_eq_zero, hne]
  simp only [YoutubeDownloader.downloadMultiplePlaylists,
    YoutubePlaylistDownloader.downloadMultiplePlaylists, hlen, Bool.false_eq_true, if_false,
    BatchTrace.outs]
  refine ⟨trivial, ?_, trivial, ?_, ?_⟩
  · simp [List.enum_length]
  · simp [List.enum_length]
  · intro i hfg
    rw [settle_map_getElem? YoutubeDownloader.downloadPlaylist playlists f i,
      settle_map_getElem? YoutubeDownloader.downloadPlaylist playlists g i,
      settle_map_getElem? YoutubePlaylistDownloader.downloadPlaylist playlists f i,
      settle_map_getElem? YoutubePlaylistDownloader.downloadPlaylist playlists g i, hfg]
    exact ⟨rfl, rfl⟩

/-- C5 witness: three requests where the second item's launcher always fails
and the others succeed; both batches resolve with two successes and one
individually logged failure. -/
theorem claim_C5_witness :
    threeRequests ≠ [] ∧
    (YoutubeDownloader.downloadMultiplePlaylists (.arr threeRequests) batchLauncherFor).result =
      .ok ((YoutubeDownloader.downloadMultiplePlaylists
        (.arr threeRequests) batchLauncherFor).outs) ∧
    (YoutubeDownloader.downloadMultiplePlaylists
      (.arr threeRequests) batchLauncherFor).outs.length = 3 ∧
    (YoutubePlaylistDownloader.downloadMultiplePlaylists
      (.arr threeRequests) batchLauncherFor).result =
      .ok ((YoutubePlaylistDownloader.downloadMultiplePlaylists
        (.arr threeRequests) batchLauncherFor).outs) ∧
    (YoutubePlaylistDownloader.downloadMultiplePlaylists
      (.arr threeRequests) batchLauncherFor).outs.length = 3 ∧
    (YoutubeDownloader.downloadMultiplePlaylists (.arr threeRequests) batchLauncherFor).outs =
      [.completed 1, .failedLogged 2 "Download failed with code 2", .completed 3] ∧
    (YoutubePlaylistDownloader.downloadMultiplePlaylists
      (.arr threeRequests) batchLauncherFor).outs =
      [.completed 1, .failedLogged 2 "Download failed with code 2\nError log: boom",
        .completed 3] :=
  ⟨by decide,
   (claim_C5 threeRequests batchLauncherFor batchLauncherFor (by decide)).1,
   (claim_C5 threeRequests batchLauncherFor batchLauncherFor (by decide)).2.1,
   (claim_C5 threeRequests batchLauncherFor batchLauncherFor (by decide)).2.2.1,
   (claim_C5 threeRequests batchLauncherFor batchLauncherFor (by decide)).2.2.2.1,
   by decide, by decide⟩

/-- C6: `checkDependencies` returns true iff both external-tool version-query
invocations succeed; whenever either fails it logs exactly the one diagnostic
line and returns false without throwing, for all four combinations of the two
tools' outcomes. -/
theorem claim_C6 (a b : PResult String) :
    (YoutubeDownloader.checkDependencies a b).1 = (a.isResolved && b.isResolved) ∧
    (YoutubeDownloader.checkDependencies a b).2 =
      (if a.isResolved && b.isResolved then []
       else ["Missing dependencies. Please install yt-dlp and ffmpeg"]) := by
  cases a <;> cases b <;>
    simp [YoutubeDownloader.checkDependencies, promiseAll2, PResult.isResolved]

/-- C7: Both batch operations throw the validation error, with zero per-item
downloads launched, when the argument is not an array or is an empty
array. -/
theorem claim_C7 (launcherFor : Nat → Nat → ProcOutcome) :
    YoutubeDownloader.downloadMultiplePlaylists .notAnArray launcherFor =
      { launches := 0,
        result := .error { message := "Please provide an array of playlist configurations" } } ∧
    YoutubeDownloader.downloadMultiplePlaylists (.arr []) launcherFor =
      { launches := 0,
        result := .error { message := "Please provide an array of playlist configurations" } } ∧
    YoutubePlaylistDownloader.downloadMultiplePlaylists .notAnArray launcherFor =
      { launches := 0,
        result := .error { message := "Please provide an array of playlist configurations" } } ∧
    YoutubePlaylistDownloader.downloadMultiplePlaylists (.arr []) launcherFor =
      { launches := 0,
        result := .error { message := "Please provide an array of playlist configurations" } } :=
  ⟨rfl, rfl, rfl, rfl⟩

/-- C8: For every request and every sequence of launcher outcomes, each
retrying download operation settles after at most 3 subprocess launches;
there is never a fourth attempt. -/
theorem claim_C8 (req : DownloadRequest) (launcher : Nat → ProcOutcome) :
    (YoutubeDownloader.downloadSingleVideo req launcher).launches ≤ 3 ∧
    (YoutubePlaylistDownloader.downloadPlaylist req launcher).launches ≤ 3 ∧
    (YoutubeSingleDownloader.downloadSingleVideo req launcher).launches ≤ 3 ∧
    (YoutubeSingleDownloaderHardened.downloadSingleVideo req launcher).launches ≤ 3 := by
  refine ⟨?_, ?_, ?_, ?_⟩ <;>
  · simp only [YoutubeDownloader.downloadSingleVideo,
      YoutubePlaylistDownloader.downloadPlaylist, YoutubeSingleDownloader.downloadSingleVideo,
      YoutubeSingleDownloaderHardened.downloadSingleVideo]
    split
    · simp
    · exact runRetry_launches_le _ _ _ _ _

/-- C9: When all retry attempts are exhausted, the error finally thrown by
the retrying operations carries only the stderr text accumulated during the
final (third) attempt: the result is a function of the third attempt's
outcome alone, so two launchers that agree on the final attempt yield the
same error, and diagnostics from the earlier failed attempts are
discarded. -/
theorem claim_C9 (req : DownloadRequest) (f g : Nat → ProcOutcome)
    (hurl : jsFalsyStr req.url = false)
    (hf : ∀ n, lenientAccept (f n).exitCode = false)
    (hg : ∀ n, lenientAccept (g n).exitCode = false)
    (hfg : f 2 = g 2) :
    (YoutubeDownloader.downloadSingleVideo req f).result =
      .error { message :=
        "Download failed (attempt 3/3):\nExit code: " ++ toString (f 2).exitCode ++
          "\nError log: " ++ (f 2).stderrText } ∧
    (YoutubeDownloader.downloadSingleVideo req f).result =
      (YoutubeDownloader.downloadSingleVideo req g).result ∧
    (YoutubePlaylistDownloader.downloadPlaylist req f).result =
      .error { message :=
        "Download failed with code " ++ toString (f 2).exitCode ++
          "\nError log: " ++ (f 2).stderrText } ∧
    (YoutubePlaylistDownloader.downloadPlaylist req f).result =
      (YoutubePlaylistDownloader.downloadPlaylist req g).result := by
  have hfs : ∀ n, strictAccept (f n).exitCode = false :=
    fun n => strictAccept_of_lenient_false _ (hf n)
  have hgs : ∀ n, strictAccept (g n).exitCode = false :=
    fun n => strictAccept_of_lenient_false _ (hg n)
  refine ⟨?_, ?_, ?_, ?_⟩
  · simp only [YoutubeDownloader.downloadSingleVideo, hurl, Bool.false_eq_true, if_false,
      runRetry_all_fail _ _ _ _ _ hfs, attemptErrMsg_last]
  · simp only [YoutubeDownloader.downloadSingleVideo, hurl, Bool.false_eq_true, if_false,
      runRetry_all_fail _ _ _ _ _ hfs, runRetry_all_fail _ _ _ _ _ hgs, hfg]
  · simp only [YoutubePlaylistDownloader.downloadPlaylist, hurl, Bool.false_eq_true, if_false,
      runRetry_all_fail _ _ _ _ _ hf, hardenedErrMsg]
  · simp only [YoutubePlaylistDownloader.downloadPlaylist, hurl, Bool.false_eq_true, if_false,
      runRetry_all_fail _ _ _ _ _ hf, runRetry_all_fail _ _ _ _ _ hg, hfg]

/-- C9 witness: a launcher whose stderr differs on the early attempts and one
constantly carrying the final stderr agree on attempt 2, so the errors
finally thrown coincide and mention only the final attempt's stderr. -/
theorem claim_C9_witness :
    jsFalsyStr sampleRequest.url = false ∧
    staggeredLauncher 2 = constFinalLauncher 2 ∧
    ((YoutubeDownloader.downloadSingleVideo sampleRequest staggeredLauncher).result =
      .error { message :=
        "Download failed (attempt 3/3):\nExit code: 2\nError log: final" } ∧
    (YoutubeDownloader.downloadSingleVideo sampleRequest staggeredLauncher).result =
      (YoutubeDownloader.downloadSingleVideo sampleRequest constFinalLauncher).result ∧
    (YoutubePlaylistDownloader.downloadPlaylist sampleRequest staggeredLauncher).result =
      .error { message := "Download failed with code 2\nError log: final" } ∧
    (YoutubePlaylistDownloader.downloadPlaylist sampleRequest staggeredLauncher).result =
      (YoutubePlaylistDownloader.downloadPlaylist sampleRequest constFinalLauncher).result) :=
  ⟨by decide, by decide,
   claim_C9 sampleRequest staggeredLauncher constFinalLauncher (by decide)
     (fun _ => rfl) (fun _ => rfl) (by decide)⟩

/-- C10: A height cap of 0 (a falsy height value) is treated the same as an
absent height cap: every command builder, in single-video and playlist
modes, produces the unconstrained quality expression rather than an
expression containing height<=0. -/
theorem claim_C10 :
    YoutubeDownloader.singleVideoFormatString (some 0) = "bestvideo+bestaudio/best" ∧
    YoutubeDownloader.playlistFormatString (some 0) = "bestvideo+bestaudio/best" ∧
    YoutubePlaylistDownloader.formatString (some 0) = "bestvideo+bestaudio/best" ∧
    YoutubePlaylistDownloader.simpleFormatString (some 0) = "bestvideo+bestaudio/best" ∧
    YoutubeSingleDownloader.formatString (some 0) = "bestvideo+bestaudio/best" ∧
    YoutubeDownloader.singleVideoFormatString none = "bestvideo+bestaudio/best" ∧
    YoutubeDownloader.playlistFormatString none = "bestvideo+bestaudio/best" ∧
    YoutubePlaylistDownloader.formatString none = "bestvideo+bestaudio/best" ∧
    YoutubePlaylistDownloader.simpleFormatString none = "bestvideo+bestaudio/best" ∧
    YoutubeSingleDownloader.formatString none = "bestvideo+bestaudio/best" :=
  ⟨rfl, rfl, rfl, rfl, rfl, rfl, rfl, rfl, rfl, rfl⟩
